import Mathlib

/-!
Verification development for the deviceapi repository (src/main.js and the
earlier revision src/unnamed/part_000).

The repository wires UI buttons to browser device-capture APIs.  We embed the
two capture controllers of src/main.js (audio and video) as explicit state
machines: each mutable variable of the source becomes a field of a state
structure, each event handler becomes a function on that structure, and the
asynchronous recorder lifecycle is driven by an explicit event list.  The
initial revision of the audio finalizer (src/unnamed/part_000) is embedded
separately where its behaviour differs.

Browser-provided effects are modelled as follows: a granted getUserMedia
stream becomes a fresh stream identifier together with an open-stream counter
(incremented on grant, decremented when the tracks of the current stream are
stopped); MediaRecorder.isTypeSupported becomes a parameter
support : String -> Bool; DOM output sinks become lists of artifacts carried
in the state.
-/

namespace DeviceApi

/-- src/main.js line 11. -/
def chrome_audio_mimeType : String := "audio/webm;codecs=opus"

/-- src/main.js line 12. -/
def safari_audio_mimeType : String := "audio/mp4;codecs=mp4a.40.2"

/-- src/main.js line 13. -/
def chrome_video_mimeType : String := "video/webm;codecs=vp8,opus"

/-- src/main.js line 14. -/
def safari_video_mimeType : String := "video/mp4;codecs=avc1.424028,mp4a.40.2"

/-- src/main.js lines 93-94: `MediaRecorder.isTypeSupported(chrome_audio_mimeType) ?
chrome_audio_mimeType : safari_audio_mimeType`. -/
def audio_codec (support : String → Bool) : String :=
  if support chrome_audio_mimeType then chrome_audio_mimeType else safari_audio_mimeType

/-- src/main.js lines 316-317: the analogous negotiation for video. -/
def video_codec (support : String → Bool) : String :=
  if support chrome_video_mimeType then chrome_video_mimeType else safari_video_mimeType

/-- The audio controller state variable of src/main.js line 46 ranges over
these three strings. -/
inductive AudioState where
  | stopped
  | recording
  | error
deriving DecidableEq

/-- A MediaRecorder, reduced to the property the code reads back from it:
the mimeType it was constructed with (src/main.js lines 64 and 95). -/
structure Recorder where
  mimeType : String
deriving DecidableEq

/-- One data chunk delivered by a dataavailable event.  The field truthy
records the JavaScript truthiness of event.data, which the video handler at
src/main.js line 321 tests before pushing. -/
structure DataChunk where
  truthy : Bool
deriving DecidableEq

/-- A Blob built from chunks, tagged with a MIME type string
(src/main.js lines 64 and 340). -/
structure MediaBlob where
  parts : List DataChunk
  type : String
deriving DecidableEq

/-- The mutable variables of ConfigureAudioCapture in src/main.js
(lines 37-117), plus the bookkeeping our stream model needs:
open_streams counts granted streams whose tracks have not been stopped,
next_stream provides fresh stream identifiers, and stop_pending records
whether stop has been requested on the current recorder (so that the
asynchronous onstop event can only fire when the recorder is stopping). -/
structure AudioCtrl where
  audio_state : AudioState
  media_recorder : Option Recorder
  media_chunks : List DataChunk
  audio_stream : Option Nat
  open_streams : Nat
  next_stream : Nat
  stop_pending : Bool
  button_text : String
  button_disabled : Bool
  sound_clips : List MediaBlob
deriving DecidableEq

/-- Initial values of src/main.js lines 46-51. -/
def initAudio : AudioCtrl :=
  { audio_state := .stopped
    media_recorder := none
    media_chunks := []
    audio_stream := none
    open_streams := 0
    next_stream := 0
    stop_pending := false
    button_text := "Record"
    button_disabled := false
    sound_clips := [] }

/-- src/main.js lines 53-58: set state to error, relabel and disable the
button.  The stream and recorder variables are not touched. -/
def on_media_recorder_error (c : AudioCtrl) : AudioCtrl :=
  { c with audio_state := .error, button_text := "Error", button_disabled := true }

/-- src/main.js line 60: push every delivered chunk, unconditionally. -/
def on_media_recorder_data (e : DataChunk) (c : AudioCtrl) : AudioCtrl :=
  { c with media_chunks := c.media_chunks ++ [e] }

/-- src/main.js lines 62-80: build a blob from the chunks tagged with
media_recorder.mimeType, append the clip, stop the tracks of audio_stream
(modelled by decrementing open_streams), then clear stream, chunks and
recorder.  The handler dereferences both media_recorder and audio_stream;
none models the TypeError raised when either is null. -/
def on_media_recorder_stop (c : AudioCtrl) : Option AudioCtrl :=
  match c.media_recorder, c.audio_stream with
  | some r, some _ =>
      some { c with
        sound_clips := c.sound_clips ++ [{ parts := c.media_chunks, type := r.mimeType }]
        open_streams := c.open_streams - 1
        audio_stream := none
        media_chunks := []
        media_recorder := none }
  | _, _ => none

/-- src/main.js lines 82-117: the audio button click handler.  grant is the
outcome of the getUserMedia request issued in the stopped case; in the
recording case media_recorder.stop() is modelled by raising stop_pending
(none models the TypeError of calling stop on a null recorder); in any other
state the default case only logs. -/
def audio_button_onclick (support : String → Bool) (grant : Bool) (c : AudioCtrl) :
    Option AudioCtrl :=
  match c.audio_state with
  | .stopped =>
      if grant then
        some { c with
          audio_stream := some c.next_stream
          next_stream := c.next_stream + 1
          open_streams := c.open_streams + 1
          media_recorder := some { mimeType := audio_codec support }
          stop_pending := false
          audio_state := .recording
          button_text := "Stop" }
      else
        some (on_media_recorder_error c)
  | .recording =>
      match c.media_recorder with
      | some _ =>
          some { c with audio_state := .stopped, button_text := "Record", stop_pending := true }
      | none => none
  | .error => some c

/-- The events that can reach the audio controller: button clicks (with the
grant outcome of any getUserMedia request they issue) and the recorder
callbacks of src/main.js lines 96-98. -/
inductive AudioEvent where
  | click (grant : Bool)
  | data (e : DataChunk)
  | recorderStop
  | recorderError
deriving DecidableEq

/-- Recorder callbacks can only fire while a recorder exists; the onstop
callback additionally requires that the recorder is stopping (stop was
called on it, or it errored). -/
def audioDeliverable (c : AudioCtrl) : AudioEvent → Bool
  | .click _ => true
  | .data _ => c.media_recorder.isSome
  | .recorderStop => c.media_recorder.isSome && c.stop_pending
  | .recorderError => c.media_recorder.isSome

/-- One delivered event.  A fatal recorder error also puts the recorder into
its stopping lifecycle (stop_pending), matching the platform behaviour that
onstop follows onerror. -/
def stepAudio (support : String → Bool) (c : AudioCtrl) : AudioEvent → Option AudioCtrl
  | .click g => audio_button_onclick support g c
  | .data e => some (on_media_recorder_data e c)
  | .recorderStop =>
      (on_media_recorder_stop c).map (fun c2 => { c2 with stop_pending := false })
  | .recorderError => some { (on_media_recorder_error c) with stop_pending := true }

/-- Deliver a list of events in order, skipping events that cannot fire in
the current configuration; none records an escaped exception. -/
def runAudioFrom (support : String → Bool) (c : AudioCtrl) : List AudioEvent → Option AudioCtrl
  | [] => some c
  | e :: es =>
      if audioDeliverable c e then
        match stepAudio support c e with
        | some c2 => runAudioFrom support c2 es
        | none => none
      else
        runAudioFrom support c es

/-- Run the audio controller from its initial configuration. -/
def runAudio (support : String → Bool) (es : List AudioEvent) : Option AudioCtrl :=
  runAudioFrom support initAudio es

/-- Reachability invariant of the audio controller (proved below):
while recording a recorder exists; a recorder exists exactly while a stream
is held; without a recorder the chunk buffer is empty; and a stopping
recorder means the state has already left recording. -/
def InvA (c : AudioCtrl) : Prop :=
  (c.audio_state = .recording → c.media_recorder.isSome) ∧
  (c.media_recorder.isSome ↔ c.audio_stream.isSome) ∧
  (c.media_recorder = none → c.media_chunks = []) ∧
  (c.stop_pending = true → c.audio_state ≠ .recording)

/-! The waveform draw loop, src/main.js lines 142-181 (identical in
src/unnamed/part_000 lines 113-152).  Each invocation of draw first fills
the canvas background, then, when audio_state is no longer recording,
returns before requesting another animation frame and before drawing the
polyline; otherwise it requests the next frame and strokes the waveform. -/

/-- Observable effects of one invocation of the draw callback. -/
structure DrawFrame where
  bg_cleared : Bool
  polyline_drawn : Bool
  frame_requested : Bool
deriving DecidableEq

/-- src/main.js lines 142-181: the body of draw as a function of the state
it reads. -/
def draw (st : AudioState) : DrawFrame :=
  { bg_cleared := true
    polyline_drawn := decide (st = .recording)
    frame_requested := decide (st = .recording) }

/-- Which invocations of the draw callback run, given the audio state each
invocation observes: invocation 0 is the initial call from visualize_audio,
and invocation n+1 runs only if invocation n ran and requested a frame. -/
def draw_runs (states : Nat → AudioState) : Nat → Bool
  | 0 => true
  | n + 1 => draw_runs states n && (draw (states n)).frame_requested

/-! The video controller of src/main.js, ConfigureVideoCapture
(lines 185-383). -/

/-- The video controller state variable of src/main.js line 210. -/
inductive VideoState where
  | stopped
  | previewing
  | recording
  | error
deriving DecidableEq

/-- The button labels and disabled flags written by update_ui. -/
structure VideoUI where
  preview_label : String
  preview_disabled : Bool
  flip_disabled : Bool
  photo_disabled : Bool
  video_disabled : Bool
deriving DecidableEq

/-- Artifacts appended to the pictures output list: still images from
take_picture and video clips from save_video (with the stream dimensions
used to size the element). -/
inductive VideoArtifact where
  | image (stream_width stream_height : Nat)
  | videoClip (clip : MediaBlob) (stream_width stream_height : Nat)
deriving DecidableEq

/-- The mutable variables of ConfigureVideoCapture (src/main.js
lines 201-211), plus the stream bookkeeping and the stop_pending recorder
lifecycle flag, as in the audio model. -/
structure VideoCtrl where
  video_state : VideoState
  video_stream : Option Nat
  open_streams : Nat
  next_stream : Nat
  back_camera : Bool
  facing_mode : String
  can_flip : Bool
  media_recorder : Option Recorder
  media_chunks : List DataChunk
  stop_pending : Bool
  pictures : List VideoArtifact
  ui : VideoUI
deriving DecidableEq

/-- Initial values of src/main.js lines 201-211. -/
def initVideo : VideoCtrl :=
  { video_state := .stopped
    video_stream := none
    open_streams := 0
    next_stream := 0
    back_camera := true
    facing_mode := "environment"
    can_flip := false
    media_recorder := none
    media_chunks := []
    stop_pending := false
    pictures := []
    ui := {
      preview_label := "Preview"
      preview_disabled := false
      flip_disabled := true
      photo_disabled := true
      video_disabled := true } }

/-- src/main.js lines 213-242: button labels and disabled flags as a
function of the current state. -/
def update_ui (c : VideoCtrl) : VideoCtrl :=
  match c.video_state with
  | .stopped =>
      { c with ui := { c.ui with
          preview_label := "Preview"
          flip_disabled := true
          photo_disabled := true
          video_disabled := true } }
  | .previewing =>
      { c with ui := { c.ui with
          preview_label := "Close"
          flip_disabled := !c.can_flip
          photo_disabled := false
          video_disabled := false } }
  | .recording =>
      { c with ui := { c.ui with
          preview_label := "Stop"
          flip_disabled := true
          photo_disabled := true
          video_disabled := true } }
  | .error =>
      { c with ui := {
          preview_label := "Error"
          preview_disabled := true
          flip_disabled := true
          photo_disabled := true
          video_disabled := true } }

/-- src/main.js lines 252-272: start_preview.  The guard throws when the
state is not stopped (second component of the result is the thrown value).
Otherwise a getUserMedia request is issued; grant is its outcome and cap is
whether the granted video track reports any facingMode capability. -/
def start_preview (grant cap : Bool) (c : VideoCtrl) : VideoCtrl × Option String :=
  if c.video_state ≠ .stopped then (c, some "Invalid state")
  else if grant then
    (update_ui { c with
        video_stream := some c.next_stream
        next_stream := c.next_stream + 1
        open_streams := c.open_streams + 1
        video_state := .previewing
        can_flip := cap }, none)
  else
    (update_ui { c with video_state := .error }, none)

/-- src/main.js lines 274-283: stop_preview.  Guard, then stop every track
of video_stream (dereferenced: none models the TypeError on a null stream),
clear the handle, set the state to stopped, update the UI. -/
def stop_preview (c : VideoCtrl) : VideoCtrl × Option String :=
  if c.video_state ≠ .previewing then (c, some "Invalid state")
  else
    match c.video_stream with
    | none => (c, some "TypeError")
    | some _ =>
        (update_ui { c with
            open_streams := c.open_streams - 1
            video_stream := none
            video_state := .stopped }, none)

/-- src/main.js lines 244-250: flip_camera.  Guard, toggle back_camera and
the facingMode constraint, then stop_preview followed by start_preview. -/
def flip_camera (grant cap : Bool) (c : VideoCtrl) : VideoCtrl × Option String :=
  if c.video_state ≠ .previewing then (c, some "Invalid state")
  else
    let nb := !c.back_camera
    let c1 := { c with
                back_camera := nb
                facing_mode := if nb then "environment" else "user" }
    match stop_preview c1 with
    | (c2, some e) => (c2, some e)
    | (c2, none) => start_preview grant cap c2

/-- src/main.js lines 285-306: take_picture.  Guard, then draw the current
frame to the capture canvas and append an image artifact; stream_width and
stream_height are the dimensions read from the preview element. -/
def take_picture (stream_width stream_height : Nat) (c : VideoCtrl) :
    VideoCtrl × Option String :=
  if c.video_state ≠ .previewing then (c, some "Invalid state")
  else
    ({ c with pictures := c.pictures ++ [.image stream_width stream_height] }, none)

/-- src/main.js lines 308-335: start_video.  Guard, negotiate the video
codec, construct the recorder, start it, move to recording, update the UI. -/
def start_video (support : String → Bool) (c : VideoCtrl) : VideoCtrl × Option String :=
  if c.video_state ≠ .previewing then (c, some "Invalid state")
  else
    (update_ui { c with
        media_recorder := some { mimeType := video_codec support }
        video_state := .recording }, none)

/-- src/main.js lines 320-322: the video dataavailable handler pushes the
chunk only if event.data is truthy. -/
def media_recorder_ondataavailable (e : DataChunk) (c : VideoCtrl) : VideoCtrl :=
  if e.truthy then { c with media_chunks := c.media_chunks ++ [e] } else c

/-- src/main.js lines 325-329: the video recorder error handler moves the
state to error and updates the UI; stream, recorder and chunks are not
touched. -/
def media_recorder_onerror (c : VideoCtrl) : VideoCtrl :=
  update_ui { c with video_state := .error }

/-- src/main.js lines 337-359: save_video.  Guard (the state must still be
recording), then build the clip blob tagged with media_recorder.mimeType
(dereferenced: none recorder models a TypeError), append the video artifact,
clear chunks and recorder, return to previewing, update the UI. -/
def save_video (stream_width stream_height : Nat) (c : VideoCtrl) :
    VideoCtrl × Option String :=
  if c.video_state ≠ .recording then (c, some "Invalid state")
  else
    match c.media_recorder with
    | none => (c, some "TypeError")
    | some r =>
        (update_ui { c with
            pictures := c.pictures ++
              [.videoClip { parts := c.media_chunks, type := r.mimeType }
                stream_width stream_height]
            media_chunks := []
            media_recorder := none
            video_state := .previewing }, none)

/-- src/main.js lines 362-379: the preview button click handler.  In the
recording case media_recorder.stop() is modelled by raising stop_pending
(save_video runs when the onstop event fires); with a null recorder the
call raises a TypeError before any mutation, leaving the state unchanged. -/
def preview_button_onclick (grant cap : Bool) (c : VideoCtrl) : VideoCtrl :=
  match c.video_state with
  | .stopped => (start_preview grant cap c).1
  | .previewing => (stop_preview c).1
  | .recording =>
      match c.media_recorder with
      | some _ => { c with stop_pending := true }
      | none => c
  | .error => update_ui { c with video_state := .error }

/-- Events that can reach the video controller: the four button handlers
(src/main.js lines 380-382) and the recorder callbacks. -/
inductive VideoEvent where
  | previewClick (grant cap : Bool)
  | flipClick (grant cap : Bool)
  | photoClick (stream_width stream_height : Nat)
  | videoClick
  | dataEvt (e : DataChunk)
  | recorderStopEvt (stream_width stream_height : Nat)
  | recorderErrorEvt
deriving DecidableEq

/-- One delivered event.  An exception thrown by a handler escapes to the
event loop without further effect, so the first component of each operation
is the resulting configuration.  Recorder callbacks fire only while a
recorder exists; onstop additionally requires a stopping recorder. -/
def stepVideo (support : String → Bool) (c : VideoCtrl) : VideoEvent → VideoCtrl
  | .previewClick g cap => preview_button_onclick g cap c
  | .flipClick g cap => (flip_camera g cap c).1
  | .photoClick w h => (take_picture w h c).1
  | .videoClick => (start_video support c).1
  | .dataEvt e =>
      if c.media_recorder.isSome then media_recorder_ondataavailable e c else c
  | .recorderStopEvt w h =>
      if c.media_recorder.isSome && c.stop_pending then
        { (save_video w h c).1 with stop_pending := false }
      else c
  | .recorderErrorEvt =>
      if c.media_recorder.isSome then
        { (media_recorder_onerror c) with stop_pending := true }
      else c

/-- Deliver a list of events in order. -/
def runVideoFrom (support : String → Bool) (c : VideoCtrl) : List VideoEvent → VideoCtrl
  | [] => c
  | e :: es => runVideoFrom support (stepVideo support c e) es

/-- Run the video controller from its initial configuration. -/
def runVideo (support : String → Bool) (es : List VideoEvent) : VideoCtrl :=
  runVideoFrom support initVideo es

/-! The first revision of the audio controller, src/unnamed/part_000.
Its finalizer (lines 48-61) differs from the one in src/main.js: the blob
is tagged with the fixed string "audio/ogg; codecs=opus" rather than the
mimeType of the recorder, and no track of the captured stream is stopped
before the chunk buffer and recorder handle are cleared. -/

/-- The audio-recording variables of src/unnamed/part_000 (lines 35-37),
with the same open-stream bookkeeping as the later revision. -/
structure V1Audio where
  audio_state : AudioState
  media_recorder : Option Recorder
  media_chunks : List DataChunk
  open_streams : Nat
  button_text : String
  button_disabled : Bool
  sound_clips : List MediaBlob
deriving DecidableEq

/-- src/unnamed/part_000 lines 48-61: build the blob with the fixed type
string, append the clip, clear chunks and recorder.  No track is stopped,
so open_streams is unchanged. -/
def v1_on_media_recorder_stop (c : V1Audio) : V1Audio :=
  { c with
    sound_clips := c.sound_clips ++
      [{ parts := c.media_chunks, type := "audio/ogg; codecs=opus" }]
    media_chunks := []
    media_recorder := none }

/-- Reachability invariant of the video controller (proved below). -/
def InvV (c : VideoCtrl) : Prop :=
  (c.video_state = .recording → c.media_recorder.isSome ∧ c.video_stream.isSome) ∧
  (c.video_state = .previewing → c.media_recorder = none ∧ c.video_stream.isSome) ∧
  (c.video_state = .stopped → c.media_recorder = none ∧ c.video_stream = none) ∧
  (c.media_recorder = none → c.media_chunks = []) ∧
  (c.stop_pending = true → c.video_state = .recording ∨ c.video_state = .error) ∧
  (c.video_state = .error → c.media_recorder.isSome = true ∨ c.video_stream = none)

/-! Concrete configurations used as inputs of witnesses and counterexamples. -/

/-- The audio configuration reached from initAudio by a granting click
followed by a stop click, before the asynchronous onstop event has fired. -/
def pendingStopConfig : AudioCtrl :=
  { audio_state := .stopped
    media_recorder := some { mimeType := chrome_audio_mimeType }
    media_chunks := []
    audio_stream := some 0
    open_streams := 1
    next_stream := 1
    stop_pending := true
    button_text := "Record"
    button_disabled := false
    sound_clips := [] }

/-- The audio configuration reached from initAudio by a granting click
followed by a recorder runtime error. -/
def errorWithStreamConfig : AudioCtrl :=
  { audio_state := .error
    media_recorder := some { mimeType := chrome_audio_mimeType }
    media_chunks := []
    audio_stream := some 0
    open_streams := 1
    next_stream := 1
    stop_pending := true
    button_text := "Error"
    button_disabled := true
    sound_clips := [] }

/-- An audio configuration in the terminal error state. -/
def errorAudioConfig : AudioCtrl :=
  { initAudio with audio_state := .error }

/-- A first-revision audio configuration whose recorder was constructed
with the Chrome audio encoding and which holds one captured chunk. -/
def v1RecordingConfig : V1Audio :=
  { audio_state := .recording
    media_recorder := some { mimeType := chrome_audio_mimeType }
    media_chunks := [{ truthy := true }]
    open_streams := 1
    button_text := "Stop"
    button_disabled := false
    sound_clips := [] }

/-- A previewing video configuration holding exactly one open stream. -/
def previewingConfig : VideoCtrl :=
  { initVideo with
    video_state := .previewing
    video_stream := some 0
    open_streams := 1
    next_stream := 1 }

/-- A recording video configuration holding one open stream, a recorder
constructed with the Chrome video encoding and one captured chunk. -/
def recordingVideoConfig : VideoCtrl :=
  { initVideo with
    video_state := .recording
    video_stream := some 0
    open_streams := 1
    next_stream := 1
    media_recorder := some { mimeType := chrome_video_mimeType }
    media_chunks := [{ truthy := true }] }

/-- A video configuration in the terminal error state. -/
def errorVideoConfig : VideoCtrl :=
  { initVideo with video_state := .error }

/-- Frame-time audio states used by the C7 witness: the draw loop observes
recording on its first two invocations and stopped from then on. -/
def waveStates : Nat → AudioState :=
  fun k => if k < 2 then .recording else .stopped

/-- A support predicate under which only the Safari fallback encodings are
supported (neither Chrome preference entry is). -/
def safariOnlySupport : String → Bool :=
  fun s => s == safari_audio_mimeType || s == safari_video_mimeType

/-!
Theorems.  First the reachability invariants of the two controllers, then
the claim theorems C1 to C10.
-/

theorem invA_init : InvA initAudio := by
  refine ⟨?_, ?_, ?_, ?_⟩ <;> simp [initAudio]

theorem invA_preserved (support : String → Bool) (c : AudioCtrl) (hc : InvA c)
    (e : AudioEvent) (hd : audioDeliverable c e = true) :
    ∃ c2, stepAudio support c e = some c2 ∧ InvA c2 := by
  obtain ⟨h1, h2, h3, h4⟩ := hc
  cases e with
  | click g =>
      cases hs : c.audio_state with
      | stopped =>
          cases g with
          | true =>
              simp only [stepAudio, audio_button_onclick, hs, if_true]
              exact ⟨_, rfl, by simp, by simp, by simp, by simp⟩
          | false =>
              simp only [stepAudio, audio_button_onclick, hs, if_false, Bool.false_eq_true]
              refine ⟨_, rfl, ?_, ?_, ?_, ?_⟩
              · simp [on_media_recorder_error]
              · simpa [on_media_recorder_error] using h2
              · simpa [on_media_recorder_error] using h3
              · simp [on_media_recorder_error]
      | recording =>
          obtain ⟨r, hr⟩ := Option.isSome_iff_exists.mp (h1 hs)
          simp only [stepAudio, audio_button_onclick, hs, hr]
          exact ⟨_, rfl, by simp, by simp [hr] at h2 ⊢; exact h2.symm ▸ rfl, by simp, by simp⟩
      | error =>
          simp only [stepAudio, audio_button_onclick, hs]
          exact ⟨c, rfl, h1, h2, h3, h4⟩
  | data d =>
      simp only [stepAudio]
      refine ⟨_, rfl, ?_, ?_, ?_, ?_⟩
      · simpa [on_media_recorder_data] using h1
      · simpa [on_media_recorder_data] using h2
      · intro h
        simp only [on_media_recorder_data] at h
        have hrs : c.media_recorder.isSome = true := by
          simpa [audioDeliverable] using hd
        simp [h] at hrs
      · simpa [on_media_recorder_data] using h4
  | recorderStop =>
      simp only [audioDeliverable, Bool.and_eq_true] at hd
      obtain ⟨hrs, hp⟩ := hd
      obtain ⟨r, hr⟩ := Option.isSome_iff_exists.mp hrs
      have hstream : c.audio_stream.isSome = true := h2.mp hrs
      obtain ⟨s, hsv⟩ := Option.isSome_iff_exists.mp hstream
      simp only [stepAudio, on_media_recorder_stop, hr, hsv, Option.map_some]
      refine ⟨_, rfl, ?_, by simp, by simp, by simp⟩
      intro h
      exact absurd (by simpa using h) (h4 hp)
  | recorderError =>
      simp only [stepAudio]
      refine ⟨_, rfl, ?_, ?_, ?_, ?_⟩
      · simp [on_media_recorder_error]
      · simpa [on_media_recorder_error] using h2
      · simpa [on_media_recorder_error] using h3
      · simp [on_media_recorder_error]

theorem runAudioFrom_invA (support : String → Bool) (es : List AudioEvent) :
    ∀ c : AudioCtrl, InvA c →
      ∃ c2, runAudioFrom support c es = some c2 ∧ InvA c2 := by
  induction es with
  | nil => intro c hc; exact ⟨c, rfl, hc⟩
  | cons e es ih =>
      intro c hc
      by_cases hd : audioDeliverable c e = true
      · obtain ⟨c2, hstep, hc2⟩ := invA_preserved support c hc e hd
        obtain ⟨c3, hrun, hc3⟩ := ih c2 hc2
        exact ⟨c3, by simp [runAudioFrom, hd, hstep, hrun], hc3⟩
      · obtain ⟨c3, hrun, hc3⟩ := ih c hc
        refine ⟨c3, ?_, hc3⟩
        simp only [runAudioFrom]
        rw [if_neg hd]
        exact hrun

theorem runAudio_invA (support : String → Bool) (es : List AudioEvent) :
    ∃ c, runAudio support es = some c ∧ InvA c :=
  runAudioFrom_invA support es initAudio invA_init

theorem invV_init : InvV initVideo := by
  refine ⟨?_, ?_, ?_, ?_, ?_, ?_⟩ <;> simp [initVideo]

theorem invV_preserved (support : String → Bool) (c : VideoCtrl) (hc : InvV c)
    (e : VideoEvent) : InvV (stepVideo support c e) := by
  obtain ⟨h1, h2, h3, h4, h5, h6⟩ := hc
  have hpend : c.video_state = .previewing → c.stop_pending = false := by
    intro hs
    cases hp : c.stop_pending
    · rfl
    · rcases h5 hp with h | h <;> simp [hs] at h
  have hpendS : c.video_state = .stopped → c.stop_pending = false := by
    intro hs
    cases hp : c.stop_pending
    · rfl
    · rcases h5 hp with h | h <;> simp [hs] at h
  cases e with
  | previewClick g cap =>
      cases hs : c.video_state with
      | stopped =>
          obtain ⟨hrec, hstr⟩ := h3 hs
          cases g with
          | true =>
              simp only [stepVideo, preview_button_onclick, hs, start_preview, update_ui]
              refine ⟨?_, ?_, ?_, ?_, ?_, ?_⟩ <;> simp [hrec, h4 hrec, hpendS hs]
          | false =>
              simp only [stepVideo, preview_button_onclick, hs, start_preview, update_ui]
              refine ⟨?_, ?_, ?_, ?_, ?_, ?_⟩ <;> simp [hrec, h4 hrec, hpendS hs, hstr]
      | previewing =>
          obtain ⟨hrec, hstr⟩ := h2 hs
          obtain ⟨s, hsv⟩ := Option.isSome_iff_exists.mp hstr
          simp only [stepVideo, preview_button_onclick, hs, stop_preview, hsv, update_ui]
          refine ⟨?_, ?_, ?_, ?_, ?_, ?_⟩ <;> simp [hrec, h4 hrec, hpend hs]
      | recording =>
          obtain ⟨hrec, hstr⟩ := h1 hs
          obtain ⟨r, hr⟩ := Option.isSome_iff_exists.mp hrec
          simp only [stepVideo, preview_button_onclick, hs, hr]
          refine ⟨?_, ?_, ?_, ?_, ?_, ?_⟩ <;> simp [hs, hr, hstr, h4]
      | error =>
          simp only [stepVideo, preview_button_onclick, hs, update_ui]
          refine ⟨by simp, by simp, by simp, ?_, by simp, ?_⟩
          · exact h4
          · intro _
            simpa using h6 hs
  | flipClick g cap =>
      cases hs : c.video_state with
      | previewing =>
          obtain ⟨hrec, hstr⟩ := h2 hs
          obtain ⟨s, hsv⟩ := Option.isSome_iff_exists.mp hstr
          cases g with
          | true =>
              simp only [stepVideo, flip_camera, hs, stop_preview, hsv, update_ui,
                start_preview]
              refine ⟨?_, ?_, ?_, ?_, ?_, ?_⟩ <;> simp [hrec, h4 hrec, hpend hs]
          | false =>
              simp only [stepVideo, flip_camera, hs, stop_preview, hsv, update_ui,
                start_preview]
              refine ⟨?_, ?_, ?_, ?_, ?_, ?_⟩ <;> simp [hrec, h4 hrec, hpend hs]
      | stopped =>
          simp only [stepVideo, flip_camera, hs]
          exact ⟨h1, h2, h3, h4, h5, h6⟩
      | recording =>
          simp only [stepVideo, flip_camera, hs]
          exact ⟨h1, h2, h3, h4, h5, h6⟩
      | error =>
          simp only [stepVideo, flip_camera, hs]
          exact ⟨h1, h2, h3, h4, h5, h6⟩
  | photoClick w h =>
      cases hs : c.video_state with
      | previewing =>
          simp only [stepVideo, take_picture, hs]
          refine ⟨by simp [hs], by simp [hs, h2 hs], by simp [hs], ?_,
            by simp [hs, hpend hs], by simp [hs]⟩
          exact h4
      | stopped =>
          simp only [stepVideo, take_picture, hs]
          exact ⟨h1, h2, h3, h4, h5, h6⟩
      | recording =>
          simp only [stepVideo, take_picture, hs]
          exact ⟨h1, h2, h3, h4, h5, h6⟩
      | error =>
          simp only [stepVideo, take_picture, hs]
          exact ⟨h1, h2, h3, h4, h5, h6⟩
  | videoClick =>
      cases hs : c.video_state with
      | previewing =>
          obtain ⟨hrec, hstr⟩ := h2 hs
          simp only [stepVideo, start_video, hs, update_ui]
          refine ⟨?_, ?_, ?_, ?_, ?_, ?_⟩ <;> simp [hstr, hpend hs]
      | stopped =>
          simp only [stepVideo, start_video, hs]
          exact ⟨h1, h2, h3, h4, h5, h6⟩
      | recording =>
          simp only [stepVideo, start_video, hs]
          exact ⟨h1, h2, h3, h4, h5, h6⟩
      | error =>
          simp only [stepVideo, start_video, hs]
          exact ⟨h1, h2, h3, h4, h5, h6⟩
  | dataEvt d =>
      by_cases hrs : c.media_recorder.isSome = true
      · simp only [stepVideo, hrs, if_true, media_recorder_ondataavailable]
        cases ht : d.truthy
        · simp only [Bool.false_eq_true, if_false]
          exact ⟨h1, h2, h3, h4, h5, h6⟩
        · simp only [if_true]
          refine ⟨h1, h2, h3, ?_, h5, h6⟩
          intro hn
          have hn2 : c.media_recorder = none := hn
          simp [hn2] at hrs
      · simp only [stepVideo, hrs]
        simp only [Bool.false_eq_true, if_false] at *
        exact ⟨h1, h2, h3, h4, h5, h6⟩
  | recorderStopEvt w h =>
      by_cases hg : (c.media_recorder.isSome && c.stop_pending) = true
      · have hg2 := hg
        simp only [Bool.and_eq_true] at hg2
        obtain ⟨hrs, hp⟩ := hg2
        cases hs : c.video_state with
        | recording =>
            obtain ⟨r, hr⟩ := Option.isSome_iff_exists.mp hrs
            simp only [stepVideo, hrs, hp, Bool.and_self, if_true, save_video, hs, hr,
              update_ui]
            refine ⟨?_, ?_, ?_, ?_, ?_, ?_⟩ <;> simp [(h1 hs).2]
        | error =>
            simp only [stepVideo, hrs, hp, Bool.and_self, if_true, save_video, hs]
            refine ⟨by simp [hs], by simp [hs], by simp [hs], ?_, by simp [hs], ?_⟩
            · exact h4
            · intro _
              simpa using h6 hs
        | stopped =>
            rcases h5 hp with hcon | hcon <;> simp [hs] at hcon
        | previewing =>
            rcases h5 hp with hcon | hcon <;> simp [hs] at hcon
      · simp only [stepVideo, hg, Bool.false_eq_true, if_false]
        exact ⟨h1, h2, h3, h4, h5, h6⟩
  | recorderErrorEvt =>
      by_cases hrs : c.media_recorder.isSome = true
      · simp only [stepVideo, hrs, if_true, media_recorder_onerror, update_ui]
        refine ⟨by simp, by simp, by simp, ?_, by simp, ?_⟩
        · exact h4
        · intro _
          exact Or.inl hrs
      · simp only [stepVideo, hrs, Bool.false_eq_true, if_false]
        exact ⟨h1, h2, h3, h4, h5, h6⟩

theorem runVideoFrom_invV (support : String → Bool) (es : List VideoEvent) :
    ∀ c : VideoCtrl, InvV c → InvV (runVideoFrom support c es) := by
  induction es with
  | nil => intro c hc; exact hc
  | cons e es ih =>
      intro c hc
      exact ih _ (invV_preserved support c hc e)

theorem runVideo_invV (support : String → Bool) (es : List VideoEvent) :
    InvV (runVideo support es) :=
  runVideoFrom_invV support es initVideo invV_init

/-- Helper for C1: from any configuration in the stopped state, a run of n
granting clicks succeeds and leaves the state stopped for even n and
recording for odd n. -/
theorem runAudioFrom_clicks (support : String → Bool) :
    ∀ (n : Nat) (c : AudioCtrl), c.audio_state = .stopped →
      ∃ c2, runAudioFrom support c (List.replicate n (.click true)) = some c2 ∧
        c2.audio_state = (if n % 2 = 0 then .stopped else .recording) := by
  intro n
  induction n using Nat.twoStepInduction with
  | zero =>
      intro c h
      exact ⟨c, rfl, by simpa using h⟩
  | one =>
      intro c h
      simp only [List.replicate_succ, List.replicate_zero, runAudioFrom, audioDeliverable,
        if_true, stepAudio, audio_button_onclick, h]
      exact ⟨_, rfl, by simp⟩
  | more n ihn ihn1 =>
      intro c h
      simp only [List.replicate_succ, runAudioFrom, audioDeliverable, if_true, stepAudio,
        audio_button_onclick, h]
      obtain ⟨c2, hrun, hstate⟩ := ihn
        { audio_state := .stopped
          media_recorder := some { mimeType := audio_codec support }
          media_chunks := c.media_chunks
          audio_stream := some c.next_stream
          open_streams := c.open_streams + 1
          next_stream := c.next_stream + 1
          stop_pending := true
          button_text := "Record"
          button_disabled := c.button_disabled
          sound_clips := c.sound_clips } rfl
      refine ⟨c2, hrun, ?_⟩
      rw [show (n + 2) % 2 = n % 2 from Nat.add_mod_right n 2]
      exact hstate

/-- C1: for every sequence of audio-button clicks in which each issued
device request is granted, the state trace alternates strictly
stopped, recording, stopped, and so on; a click in the error state changes
nothing (in particular neither the state nor the recorder); and no
delivered event sequence ever makes a handler raise an exception (the run
never returns none). -/
theorem C1_audio_toggle_alternation (support : String → Bool) :
    (∀ n : Nat, ∃ c, runAudio support (List.replicate n (.click true)) = some c ∧
        c.audio_state = (if n % 2 = 0 then .stopped else .recording)) ∧
    (∀ (g : Bool) (c : AudioCtrl), c.audio_state = .error →
        audio_button_onclick support g c = some c) ∧
    (∀ es : List AudioEvent, (runAudio support es).isSome = true) := by
  refine ⟨?_, ?_, ?_⟩
  · intro n
    exact runAudioFrom_clicks support n initAudio rfl
  · intro g c h
    simp [audio_button_onclick, h]
  · intro es
    obtain ⟨c, hc, _⟩ := runAudio_invA support es
    simp [hc]

/-- Witness for C1 at concrete inputs: three granting clicks end in the
recording state, a click in a concrete error configuration is a no-op, and
a concrete event sequence containing a denial runs without an exception. -/
theorem C1_audio_toggle_alternation_witness :
    (∃ c, runAudio (fun _ => true) (List.replicate 3 (.click true)) = some c ∧
        c.audio_state = .recording) ∧
    (errorAudioConfig.audio_state = .error) ∧
    (audio_button_onclick (fun _ => true) true errorAudioConfig = some errorAudioConfig) ∧
    ((runAudio (fun _ => true) [.click true, .data { truthy := true }, .click false]).isSome
      = true) := by
  obtain ⟨ha, hb, hc⟩ := C1_audio_toggle_alternation (fun _ => true)
  refine ⟨?_, rfl, hb true errorAudioConfig rfl, hc _⟩
  obtain ⟨c, h1, h2⟩ := ha 3
  exact ⟨c, h1, by simpa using h2⟩

/-- C3 counterexample: the claimed invariant — the stream handle exists if
and only if the state is recording (for the audio controller, recording is
the only state outside stopped, error and the initial state) and a
non-empty chunk buffer exists only while recording — fails on the reachable
configuration between the stop click and the asynchronous onstop event:
after [click true, click true] the state is already stopped while the
stream handle is still held. -/
theorem C3_invariant_counterexample :
    ¬ (∀ (support : String → Bool) (es : List AudioEvent) (c : AudioCtrl),
        runAudio support es = some c →
        ((c.audio_stream.isSome = true ↔ c.audio_state = .recording) ∧
         (c.media_chunks ≠ [] → c.audio_state = .recording))) := by
  intro hclaim
  have h := hclaim (fun _ => true) [.click true, .click true] pendingStopConfig rfl
  exact absurd (h.1.mp rfl) (by decide)

/-- C3 (amended): in every reachable quiescent configuration — one with no
stop or finalize pending and no live recorder left behind by a runtime
error, expressed as: the recorder handle is null or the state is recording —
the stream handle exists exactly while the state is outside
stopped/error/initial (recording for the audio controller; previewing or
recording for the video controller), and a non-empty chunk buffer occurs
only while recording. -/
theorem C3_quiescent_invariant :
    (∀ (support : String → Bool) (es : List AudioEvent) (c : AudioCtrl),
        runAudio support es = some c →
        c.media_recorder = none ∨ c.audio_state = .recording →
        ((c.audio_stream.isSome = true ↔ c.audio_state = .recording) ∧
         (c.media_chunks ≠ [] → c.audio_state = .recording))) ∧
    (∀ (support : String → Bool) (es : List VideoEvent),
        (runVideo support es).media_recorder = none ∨
          (runVideo support es).video_state = .recording →
        (((runVideo support es).video_stream.isSome = true ↔
            ((runVideo support es).video_state = .previewing ∨
             (runVideo support es).video_state = .recording)) ∧
         ((runVideo support es).media_chunks ≠ [] →
            (runVideo support es).video_state = .recording))) := by
  constructor
  · intro support es c hrun hq
    obtain ⟨c2, hrun2, h1, h2, h3, h4⟩ := runAudio_invA support es
    rw [hrun] at hrun2
    obtain rfl : c = c2 := by simpa using hrun2
    rcases hq with hn | hrec
    · have hstream : c.audio_stream.isSome = false := by
        cases hv : c.audio_stream.isSome
        · rfl
        · exact absurd (h2.mpr hv) (by simp [hn])
      refine ⟨?_, ?_⟩
      · rw [hstream]
        constructor
        · intro hfalse; exact absurd hfalse (by simp)
        · intro hr; exact absurd (h1 hr) (by simp [hn])
      · intro hne; exact absurd (h3 hn) hne
    · have hrs := h1 hrec
      refine ⟨?_, fun _ => hrec⟩
      rw [h2.mp hrs, hrec]
      simp
  · intro support es hq
    obtain ⟨h1, h2, h3, h4, h5, h6⟩ := runVideo_invV support es
    set c := runVideo support es
    rcases hq with hn | hrec
    · have hnr : c.video_state ≠ .recording := fun hr =>
        absurd (h1 hr).1 (by simp [hn])
      refine ⟨?_, fun hne => absurd (h4 hn) hne⟩
      cases hs : c.video_state with
      | stopped => simp [(h3 hs).2, hs]
      | previewing => simp [(h2 hs).2, hs]
      | recording => exact absurd hs hnr
      | error =>
          rcases h6 hs with hr | hne
          · simp [hn] at hr
          · simp [hne, hs]
    · obtain ⟨hrs, hstr⟩ := h1 hrec
      exact ⟨by simp [hstr, hrec], fun _ => hrec⟩

/-- Witness for C3 (amended) at concrete inputs: the initial audio
configuration (reachable by the empty run, quiescent since it has no
recorder) and the initial video configuration satisfy the quiescent
invariant. -/
theorem C3_quiescent_invariant_witness :
    ((initAudio.audio_stream.isSome = true ↔ initAudio.audio_state = .recording) ∧
     (initAudio.media_chunks ≠ [] → initAudio.audio_state = .recording)) ∧
    ((initVideo.video_stream.isSome = true ↔
        (initVideo.video_state = .previewing ∨ initVideo.video_state = .recording)) ∧
     (initVideo.media_chunks ≠ [] → initVideo.video_state = .recording)) :=
  ⟨C3_quiescent_invariant.1 (fun _ => true) [] initAudio rfl (Or.inl rfl),
   C3_quiescent_invariant.2 (fun _ => true) [] (Or.inl rfl)⟩

/-- C4 counterexample: the claim that every exit path, including the
transition to the error state, stops all tracks of the device stream fails
on the reachable run [click true, recorderError]: the resulting
configuration is in the error state while the stream is still held and its
tracks still run (open_streams = 1). -/
theorem C4_release_counterexample :
    ¬ (∀ (support : String → Bool) (es : List AudioEvent) (c : AudioCtrl),
        runAudio support es = some c → c.audio_state = .error →
        c.open_streams = 0 ∧ c.audio_stream = none) := by
  intro hclaim
  have h := hclaim (fun _ => true) [.click true, .recorderError]
    errorWithStreamConfig rfl rfl
  exact absurd h.1 (by decide)

/-- C4 (amended): on the discard paths of the current revision — the audio
finalizer and stop_preview (also run by flip_camera) — all tracks of the
current stream are stopped (open_streams decremented) in the same step that
clears the handle; but the transition to the error state stops no track and
keeps the handle, in both controllers, and the audio finalizer of the
initial revision discards its recorder without stopping any track. -/
theorem C4_release_on_discard_paths :
    (∀ c : AudioCtrl, c.media_recorder.isSome = true → c.audio_stream.isSome = true →
        ∃ c2, on_media_recorder_stop c = some c2 ∧
          c2.open_streams = c.open_streams - 1 ∧ c2.audio_stream = none) ∧
    (∀ c : VideoCtrl, c.video_state = .previewing → c.video_stream.isSome = true →
        (stop_preview c).1.open_streams = c.open_streams - 1 ∧
        (stop_preview c).1.video_stream = none ∧
        (stop_preview c).2 = none) ∧
    (∀ c : AudioCtrl,
        (on_media_recorder_error c).open_streams = c.open_streams ∧
        (on_media_recorder_error c).audio_stream = c.audio_stream) ∧
    (∀ c : VideoCtrl,
        (media_recorder_onerror c).open_streams = c.open_streams ∧
        (media_recorder_onerror c).video_stream = c.video_stream) ∧
    (∀ c : V1Audio,
        (v1_on_media_recorder_stop c).open_streams = c.open_streams ∧
        (v1_on_media_recorder_stop c).media_recorder = none) := by
  refine ⟨?_, ?_, ?_, ?_, ?_⟩
  · intro c hr hs
    obtain ⟨r, hrv⟩ := Option.isSome_iff_exists.mp hr
    obtain ⟨s, hsv⟩ := Option.isSome_iff_exists.mp hs
    simp only [on_media_recorder_stop, hrv, hsv]
    exact ⟨_, rfl, rfl, rfl⟩
  · intro c hst hs
    obtain ⟨s, hsv⟩ := Option.isSome_iff_exists.mp hs
    refine ⟨?_, ?_, ?_⟩ <;> simp [stop_preview, hst, hsv, update_ui]
  · intro c
    exact ⟨rfl, rfl⟩
  · intro c
    constructor <;> simp [media_recorder_onerror, update_ui]
  · intro c
    exact ⟨rfl, rfl⟩

/-- Witness for C4 (amended) at concrete inputs: the pending-stop audio
configuration is finalized with its track stopped and handle cleared; the
previewing video configuration is stopped likewise; the error handlers on
the same configurations release nothing; the first-revision finalizer
clears the recorder of its recording configuration without releasing. -/
theorem C4_release_on_discard_paths_witness :
    (∃ c2, on_media_recorder_stop pendingStopConfig = some c2 ∧
        c2.open_streams = 0 ∧ c2.audio_stream = none) ∧
    ((stop_preview previewingConfig).1.open_streams = 0 ∧
     (stop_preview previewingConfig).1.video_stream = none ∧
     (stop_preview previewingConfig).2 = none) ∧
    ((on_media_recorder_error pendingStopConfig).open_streams = 1 ∧
     (on_media_recorder_error pendingStopConfig).audio_stream = some 0) ∧
    ((media_recorder_onerror previewingConfig).open_streams = 1 ∧
     (media_recorder_onerror previewingConfig).video_stream = some 0) ∧
    ((v1_on_media_recorder_stop v1RecordingConfig).open_streams = 1 ∧
     (v1_on_media_recorder_stop v1RecordingConfig).media_recorder = none) := by
  obtain ⟨ha, hb, hc, hd, he⟩ := C4_release_on_discard_paths
  exact ⟨ha pendingStopConfig rfl rfl, hb previewingConfig rfl rfl,
    hc pendingStopConfig, hd previewingConfig, he v1RecordingConfig⟩

/-- C5 counterexample: in the finalizer of the initial revision the output
blob is tagged with the fixed string audio/ogg codecs opus, not with the
mimeType the recorder was constructed with: on a configuration whose
recorder carries the Chrome audio encoding, the appended clip is tagged
with the fixed string, which differs from that encoding. -/
theorem C5_blob_tag_counterexample :
    v1RecordingConfig.media_recorder = some { mimeType := chrome_audio_mimeType } ∧
    (v1_on_media_recorder_stop v1RecordingConfig).sound_clips =
      v1RecordingConfig.sound_clips ++
        [{ parts := v1RecordingConfig.media_chunks, type := "audio/ogg; codecs=opus" }] ∧
    ("audio/ogg; codecs=opus" : String) ≠ chrome_audio_mimeType :=
  ⟨rfl, rfl, by decide⟩

/-- C5 (amended): after every finalize the chunk buffer is empty and the
recorder handle is null; in the current revision (audio finalizer and
save_video) the single appended blob is tagged with the mimeType the
recorder was constructed with, while the audio finalizer of the
initial revision tags it with the fixed string audio/ogg codecs opus
regardless of the encoding of the recorder. -/
theorem C5_finalize_cleanup_and_tag :
    (∀ (c : AudioCtrl) (r : Recorder), c.media_recorder = some r →
        c.audio_stream.isSome = true →
        ∃ c2, on_media_recorder_stop c = some c2 ∧
          c2.media_chunks = [] ∧ c2.media_recorder = none ∧
          c2.sound_clips = c.sound_clips ++
            [{ parts := c.media_chunks, type := r.mimeType }]) ∧
    (∀ (c : VideoCtrl) (r : Recorder) (w h : Nat), c.video_state = .recording →
        c.media_recorder = some r →
        (save_video w h c).1.media_chunks = [] ∧
        (save_video w h c).1.media_recorder = none ∧
        (save_video w h c).2 = none ∧
        (save_video w h c).1.pictures = c.pictures ++
          [.videoClip { parts := c.media_chunks, type := r.mimeType } w h]) ∧
    (∀ c : V1Audio,
        (v1_on_media_recorder_stop c).media_chunks = [] ∧
        (v1_on_media_recorder_stop c).media_recorder = none ∧
        (v1_on_media_recorder_stop c).sound_clips = c.sound_clips ++
          [{ parts := c.media_chunks, type := "audio/ogg; codecs=opus" }]) := by
  refine ⟨?_, ?_, ?_⟩
  · intro c r hrv hs
    obtain ⟨s, hsv⟩ := Option.isSome_iff_exists.mp hs
    simp only [on_media_recorder_stop, hrv, hsv]
    exact ⟨_, rfl, rfl, rfl, rfl⟩
  · intro c r w h hst hrv
    refine ⟨?_, ?_, ?_, ?_⟩ <;> simp [save_video, hst, hrv, update_ui]
  · intro c
    exact ⟨rfl, rfl, rfl⟩

/-- Witness for C5 (amended) at concrete inputs: finalizing the
pending-stop audio configuration and the recording video configuration
clears buffer and recorder and appends a blob tagged with the Chrome
encoding each recorder was constructed with; the first-revision finalizer
clears likewise. -/
theorem C5_finalize_cleanup_and_tag_witness :
    (∃ c2, on_media_recorder_stop pendingStopConfig = some c2 ∧
        c2.media_chunks = [] ∧ c2.media_recorder = none ∧
        c2.sound_clips = [{ parts := [], type := chrome_audio_mimeType }]) ∧
    ((save_video 640 480 recordingVideoConfig).1.media_chunks = [] ∧
     (save_video 640 480 recordingVideoConfig).1.media_recorder = none ∧
     (save_video 640 480 recordingVideoConfig).2 = none ∧
     (save_video 640 480 recordingVideoConfig).1.pictures =
       [.videoClip { parts := [{ truthy := true }], type := chrome_video_mimeType }
          640 480]) ∧
    ((v1_on_media_recorder_stop v1RecordingConfig).media_chunks = [] ∧
     (v1_on_media_recorder_stop v1RecordingConfig).media_recorder = none) := by
  obtain ⟨ha, hb, hc⟩ := C5_finalize_cleanup_and_tag
  refine ⟨?_, ?_, ?_⟩
  · obtain ⟨c2, h1, h2, h3, h4⟩ :=
      ha pendingStopConfig { mimeType := chrome_audio_mimeType } rfl rfl
    exact ⟨c2, h1, h2, h3, h4⟩
  · obtain ⟨h1, h2, h3, h4⟩ :=
      hb recordingVideoConfig { mimeType := chrome_video_mimeType } 640 480 rfl rfl
    exact ⟨h1, h2, h3, h4⟩
  · exact ⟨(hc v1RecordingConfig).1, (hc v1RecordingConfig).2.1⟩

/-- C2: take_picture and start_video called while video_state is stopped
throw the Invalid state signal and leave the whole controller configuration
(state, stream handle, recorder, chunk buffer) unchanged. -/
theorem C2_fail_fast_when_stopped (w h : Nat) (support : String → Bool)
    (c : VideoCtrl) (hs : c.video_state = .stopped) :
    take_picture w h c = (c, some "Invalid state") ∧
    start_video support c = (c, some "Invalid state") := by
  constructor
  · simp [take_picture, hs]
  · simp [start_video, hs]

/-- Witness for C2: the initial video configuration is stopped, and both
calls fail fast on it. -/
theorem C2_fail_fast_when_stopped_witness :
    initVideo.video_state = .stopped ∧
    take_picture 640 480 initVideo = (initVideo, some "Invalid state") ∧
    start_video (fun _ => true) initVideo = (initVideo, some "Invalid state") :=
  ⟨rfl, (C2_fail_fast_when_stopped 640 480 (fun _ => true) initVideo rfl).1,
    (C2_fail_fast_when_stopped 640 480 (fun _ => true) initVideo rfl).2⟩

/-- C6: a flip_camera call made while previewing with one open stream ends,
once the restart resolves, either previewing with exactly one open stream
or in the error state with zero open streams; in neither outcome is a
stream left with running tracks behind a discarded handle, and no
exception escapes the flip. -/
theorem C6_flip_resolution (grant cap : Bool) (c : VideoCtrl)
    (hs : c.video_state = .previewing) (hstr : c.video_stream.isSome = true)
    (hopen : c.open_streams = 1) :
    (((flip_camera grant cap c).1.video_state = .previewing ∧
        (flip_camera grant cap c).1.open_streams = 1) ∨
     ((flip_camera grant cap c).1.video_state = .error ∧
        (flip_camera grant cap c).1.open_streams = 0)) ∧
    (flip_camera grant cap c).2 = none := by
  obtain ⟨s, hsv⟩ := Option.isSome_iff_exists.mp hstr
  cases grant with
  | true =>
      constructor
      · left
        constructor <;>
          simp [flip_camera, hs, stop_preview, hsv, start_preview, update_ui, hopen]
      · simp [flip_camera, hs, stop_preview, hsv, start_preview, update_ui]
  | false =>
      constructor
      · right
        constructor <;>
          simp [flip_camera, hs, stop_preview, hsv, start_preview, update_ui, hopen]
      · simp [flip_camera, hs, stop_preview, hsv, start_preview, update_ui]

/-- Witness for C6 at concrete inputs: flipping the previewing
configuration with a granted restart stays previewing with one open
stream, and with a denied restart ends in error with zero open streams. -/
theorem C6_flip_resolution_witness :
    previewingConfig.video_state = .previewing ∧
    previewingConfig.video_stream.isSome = true ∧
    previewingConfig.open_streams = 1 ∧
    ((flip_camera true true previewingConfig).1.video_state = .previewing ∨
      (flip_camera true true previewingConfig).1.video_state = .error) ∧
    ((flip_camera false true previewingConfig).1.video_state = .previewing ∨
      (flip_camera false true previewingConfig).1.video_state = .error) := by
  refine ⟨rfl, rfl, rfl, ?_, ?_⟩
  · rcases (C6_flip_resolution true true previewingConfig rfl rfl rfl).1 with h | h
    · exact Or.inl h.1
    · exact Or.inr h.1
  · rcases (C6_flip_resolution false true previewingConfig rfl rfl rfl).1 with h | h
    · exact Or.inl h.1
    · exact Or.inr h.1

/-- Helper for C7: once an invocation of the draw loop does not run, no
later invocation runs. -/
theorem draw_runs_false_add (states : Nat → AudioState) (m : Nat)
    (hm : draw_runs states m = false) :
    ∀ k, draw_runs states (m + k) = false := by
  intro k
  induction k with
  | zero => simpa using hm
  | succ k ih =>
      show draw_runs states ((m + k) + 1) = false
      simp [draw_runs, ih]

/-- C7: if the draw loop is still running at invocation n and the audio
state observed there has left recording, that invocation clears the canvas
background, draws no waveform polyline, requests no further animation
frame, and no later invocation of the loop runs — so exactly one clear
happens after the state change. -/
theorem C7_draw_loop_tail (states : Nat → AudioState) (n : Nat)
    (_hrun : draw_runs states n = true) (hstate : states n ≠ .recording) :
    (draw (states n)).bg_cleared = true ∧
    (draw (states n)).polyline_drawn = false ∧
    (draw (states n)).frame_requested = false ∧
    (∀ m, n < m → draw_runs states m = false) := by
  refine ⟨rfl, by simp [draw, hstate], by simp [draw, hstate], ?_⟩
  intro m hm
  have h1 : draw_runs states (n + 1) = false := by
    simp [draw_runs, draw, hstate]
  obtain ⟨k, rfl⟩ : ∃ k, m = (n + 1) + k := ⟨m - (n + 1), by omega⟩
  exact draw_runs_false_add states (n + 1) h1 k

/-- Witness for C7 at a concrete state trace: with recording observed at
invocations 0 and 1 and stopped from invocation 2 on, invocation 2 still
runs, clears the background, draws nothing, requests nothing, and no
invocation after 2 runs. -/
theorem C7_draw_loop_tail_witness :
    draw_runs waveStates 2 = true ∧
    waveStates 2 ≠ .recording ∧
    ((draw (waveStates 2)).bg_cleared = true ∧
     (draw (waveStates 2)).polyline_drawn = false ∧
     (draw (waveStates 2)).frame_requested = false ∧
     (∀ m, 2 < m → draw_runs waveStates m = false)) :=
  ⟨rfl, by decide, C7_draw_loop_tail waveStates 2 rfl (by decide)⟩

/-- C8: encoding negotiation takes the first platform-supported entry of
the two-entry preference list: when only the Safari entry is supported the
recorder is constructed with the Safari entry and never the Chrome one,
and when the Chrome entry is supported it is chosen — for audio and video
alike. -/
theorem C8_codec_negotiation (support : String → Bool) :
    (support chrome_audio_mimeType = false → support safari_audio_mimeType = true →
        audio_codec support = safari_audio_mimeType ∧
        audio_codec support ≠ chrome_audio_mimeType) ∧
    (support chrome_audio_mimeType = true →
        audio_codec support = chrome_audio_mimeType) ∧
    (support chrome_video_mimeType = false → support safari_video_mimeType = true →
        video_codec support = safari_video_mimeType ∧
        video_codec support ≠ chrome_video_mimeType) ∧
    (support chrome_video_mimeType = true →
        video_codec support = chrome_video_mimeType) := by
  refine ⟨?_, ?_, ?_, ?_⟩
  · intro h _
    refine ⟨by simp [audio_codec, h], ?_⟩
    simp only [audio_codec, h, Bool.false_eq_true, if_false]
    decide
  · intro h
    simp [audio_codec, h]
  · intro h _
    refine ⟨by simp [video_codec, h], ?_⟩
    simp only [video_codec, h, Bool.false_eq_true, if_false]
    decide
  · intro h
    simp [video_codec, h]

/-- Witness for C8 at concrete support predicates: under the Safari-only
platform both recorders are constructed with the Safari entries, and under
a platform supporting everything both are constructed with the Chrome
entries. -/
theorem C8_codec_negotiation_witness :
    safariOnlySupport chrome_audio_mimeType = false ∧
    safariOnlySupport safari_audio_mimeType = true ∧
    safariOnlySupport chrome_video_mimeType = false ∧
    safariOnlySupport safari_video_mimeType = true ∧
    (audio_codec safariOnlySupport = safari_audio_mimeType ∧
      audio_codec safariOnlySupport ≠ chrome_audio_mimeType) ∧
    (video_codec safariOnlySupport = safari_video_mimeType ∧
      video_codec safariOnlySupport ≠ chrome_video_mimeType) ∧
    audio_codec (fun _ => true) = chrome_audio_mimeType ∧
    video_codec (fun _ => true) = chrome_video_mimeType := by
  obtain ⟨ha, hb, hc, hd⟩ := C8_codec_negotiation safariOnlySupport
  obtain ⟨-, hb2, -, hd2⟩ := C8_codec_negotiation (fun _ => true)
  exact ⟨by decide, by decide, by decide, by decide,
    ha (by decide) (by decide), hc (by decide) (by decide),
    hb2 rfl, hd2 rfl⟩

/-- C9: the video dataavailable handler appends the delivered chunk to the
recording buffer exactly when the chunk payload is truthy, while the audio
data handler appends every delivered chunk unconditionally. -/
theorem C9_data_append_policies (e : DataChunk) (ca : AudioCtrl) (cv : VideoCtrl) :
    ((media_recorder_ondataavailable e cv).media_chunks =
        (if e.truthy then cv.media_chunks ++ [e] else cv.media_chunks)) ∧
    ((media_recorder_ondataavailable e cv).media_chunks = cv.media_chunks ++ [e] ↔
        e.truthy = true) ∧
    ((on_media_recorder_data e ca).media_chunks = ca.media_chunks ++ [e]) := by
  refine ⟨?_, ?_, rfl⟩
  · cases ht : e.truthy <;> simp [media_recorder_ondataavailable, ht]
  · constructor
    · intro h
      cases ht : e.truthy
      · exfalso
        simp only [media_recorder_ondataavailable, ht, Bool.false_eq_true, if_false] at h
        have := congrArg List.length h
        simp at this
      · rfl
    · intro ht
      simp [media_recorder_ondataavailable, ht]

/-- Witness for C9 at concrete inputs: a falsy chunk is dropped by the
video handler but still appended by the audio handler. -/
theorem C9_data_append_policies_witness :
    ((media_recorder_ondataavailable { truthy := false } initVideo).media_chunks =
        initVideo.media_chunks) ∧
    ((on_media_recorder_data { truthy := false } initAudio).media_chunks =
        initAudio.media_chunks ++ [{ truthy := false }]) := by
  have h := C9_data_append_policies { truthy := false } initAudio initVideo
  exact ⟨by simpa using h.1, h.2.2⟩

/-- C10: when a recorder runtime error has already moved video_state to
error before the stop event fires, save_video raises the Invalid state
signal and the whole configuration is unchanged: nothing is appended to
the output list, chunks and recorder are not cleared, and the state stays
error. -/
theorem C10_save_video_in_error (w h : Nat) (c : VideoCtrl)
    (hs : c.video_state = .error) :
    save_video w h c = (c, some "Invalid state") := by
  simp [save_video, hs]

/-- Witness for C10 at a concrete input: save_video on the error
configuration throws and changes nothing. -/
theorem C10_save_video_in_error_witness :
    errorVideoConfig.video_state = .error ∧
    save_video 640 480 errorVideoConfig = (errorVideoConfig, some "Invalid state") :=
  ⟨rfl, C10_save_video_in_error 640 480 errorVideoConfig rfl⟩

end DeviceApi
